import Mathlib

/-!
Verification of the streamflow token-streaming program.

Shallow embedding of the stream accounting core:
machine integers are modelled as `Nat`/`Int` with explicit wrapping,
saturation and checked arithmetic mirroring the Rust source
(release-build semantics: plain `+`/`-`/`*` on fixed-width integers wrap,
`checked_*` operations fail, `saturating_*` clamp, casts truncate or
sign-extend); fallible code returns `Except`.

The repository contains several independently written record shapes for
a stream.  Each is embedded in its own namespace:
* `SF`   — `src/programs/streamflow/src/state/stream.rs` (the status-bearing
           record with the four vesting policies, fee model and cancel guard);
* `utils`— `src/programs/streamflow/src/state/mod.rs` (status transitions);
* `WD`   — `src/programs/streamflow/src/instructions/withdraw.rs` (the
           withdraw handler and the record shape its own `impl Stream`
           block and unit tests use: `end_time : Option`, `is_active`,
           `cliff_amount : Option`);
* `CS`   — `src/programs/streamflow/src/instructions/cancel_stream.rs`
           (the cancel-time settlement split);
* `LIB`  — `src/programs/streamflow/src/lib.rs` (the cancel entrypoint's
           validation gates).
-/

/-! Machine-integer helpers. -/

def U64_MOD : Nat := 2 ^ 64

def U128_MOD : Nat := 2 ^ 128

def I64_MAX : Int := 2 ^ 63 - 1

def I64_MIN : Int := -(2 ^ 63)

/-- Rust `i64::saturating_sub`. -/
def satSubI64 (a b : Int) : Int := max I64_MIN (min (a - b) I64_MAX)

/-- Rust `u64::saturating_add`. -/
def satAddU64 (a b : Nat) : Nat := min (a + b) (U64_MOD - 1)

/-- Rust `x as i64` for a `u64` value `x` (two's-complement wrap). -/
def wrapU64ToI64 (x : Nat) : Int :=
  if (x : Int) < 2 ^ 63 then (x : Int) else (x : Int) - (2 ^ 64 : Int)

/-- Rust `x as u64` for an `i64` value `x` (two's-complement wrap). -/
def wrapI64ToU64 (x : Int) : Nat := (x % (2 ^ 64 : Int)).toNat

/-- Rust `x as u128` for an `i64` value `x` (sign-extending cast). -/
def castI64ToU128 (x : Int) : Nat := (x % (2 ^ 128 : Int)).toNat

/-- Rust `x as u64` for a `u128` value `x` (truncation). -/
def truncU128ToU64 (x : Nat) : Nat := x % U64_MOD

/-- Rust `u128::checked_mul`. -/
def checkedMulU128 (a b : Nat) : Option Nat :=
  if a * b < U128_MOD then some (a * b) else none

/-- Rust `u128::checked_div` (fails exactly on a zero divisor). -/
def checkedDivU128 (a b : Nat) : Option Nat :=
  if b = 0 then none else some (a / b)

/-- Rust `u64::checked_add`. -/
def checkedAddU64 (a b : Nat) : Option Nat :=
  if a + b < U64_MOD then some (a + b) else none

/-- Rust `i64::checked_mul`. -/
def checkedMulI64 (a b : Int) : Option Int :=
  if I64_MIN ≤ a * b ∧ a * b ≤ I64_MAX then some (a * b) else none

/-- Rust `i64::checked_sub`. -/
def checkedSubI64 (a b : Int) : Option Int :=
  if I64_MIN ≤ a - b ∧ a - b ≤ I64_MAX then some (a - b) else none

/-- Rust `i64` wrapping normalisation (used for a plain `+` on `i64`). -/
def wrapToI64 (x : Int) : Int := (x + 2 ^ 63) % 2 ^ 64 - 2 ^ 63

/-- Error codes produced by the embedded functions.  The source spreads
them over `state/stream.rs` (`ErrorCode::MathOverflow`),
`errors::StreamError` (withdraw/cancel instruction errors) and Rust
panics (`PanicDivByZero` models the unchecked division in
`calculate_step_amount`).  `StreamAlreadyCompleted` is declared in
error.rs ("Stream has already been completed") but no code path in the
repository ever produces it; it appears here only so that statements can
compare against it. -/
inductive Err where
  | MathOverflow
  | PanicDivByZero
  | NoTokensToWithdraw
  | InsufficientWithdrawableBalance
  | StreamAlreadyCanceled
  | StreamPaused
  | UnauthorizedCancel
  | StreamNotActive
  | Unauthorized
  | StreamAlreadyCompleted
  deriving DecidableEq

namespace SF

/-- `StreamStatus` from `state/stream.rs` (the identical enum in
`state/mod.rs` is shared with this one). -/
inductive StreamStatus where
  | Scheduled
  | Streaming
  | Paused
  | Cancelled
  | Completed
  deriving DecidableEq, Fintype

/-- `StreamType` from `state/stream.rs`. -/
inductive StreamType where
  | Linear
  | Cliff
  | Step
  | Custom
  deriving DecidableEq

/-- The `Stream` account of `state/stream.rs`.  Pubkeys are opaque
identities modelled as `Nat`; the fixed byte buffers (`name`,
`metadata`, `_reserved`) and the escrow/fee-recipient pubkeys play no
role in any embedded function and are omitted. -/
structure Stream where
  sender : Nat
  recipient : Nat
  mint : Nat
  deposited_amount : Nat
  withdrawn_amount : Nat
  start_time : Int
  end_time : Int
  last_withdrawn_at : Int
  rate_amount : Nat
  rate_interval_in_seconds : Nat
  cancelable_by_sender : Bool
  cancelable_by_recipient : Bool
  automatic_withdrawal : Bool
  can_topup : Bool
  can_update_rate : Bool
  status : StreamStatus
  stream_type : StreamType
  cliff_amount : Nat
  cliff_time : Int
  fee_percentage : Nat
  partner_fee_percentage : Nat
  bump : Nat

/-- `Stream::calculate_linear_amount` (stream.rs lines 162-178). -/
def Stream.calculate_linear_amount (s : Stream) (current_time : Int) : Except Err Nat :=
  let effective_time := min current_time s.end_time
  let elapsed_time := satSubI64 effective_time s.start_time
  let total_duration := satSubI64 s.end_time s.start_time
  if total_duration = 0 then Except.ok s.deposited_amount
  else
    match checkedMulU128 s.deposited_amount (castI64ToU128 elapsed_time) with
    | none => Except.error Err.MathOverflow
    | some p =>
      match checkedDivU128 p (castI64ToU128 total_duration) with
      | none => Except.error Err.MathOverflow
      | some q => Except.ok (min (truncU128ToU64 q) s.deposited_amount)

/-- `Stream::calculate_cliff_amount` (stream.rs lines 181-218). -/
def Stream.calculate_cliff_amount (s : Stream) (current_time : Int) : Except Err Nat :=
  if current_time < s.cliff_time then Except.ok 0
  else if current_time < s.start_time then Except.ok 0
  else
    let cliff_released := if s.cliff_time ≤ current_time then s.cliff_amount else 0
    let remaining_amount := s.deposited_amount - s.cliff_amount
    let linear_result : Except Err Nat :=
      if s.start_time < current_time ∧ 0 < remaining_amount then
        let effective_time := min current_time s.end_time
        let elapsed_time := satSubI64 effective_time s.start_time
        let total_duration := satSubI64 s.end_time s.start_time
        if 0 < total_duration then
          match checkedMulU128 remaining_amount (castI64ToU128 elapsed_time) with
          | none => Except.error Err.MathOverflow
          | some p =>
            match checkedDivU128 p (castI64ToU128 total_duration) with
            | none => Except.error Err.MathOverflow
            | some q => Except.ok (truncU128ToU64 q)
        else Except.ok remaining_amount
      else Except.ok 0
    match linear_result with
    | Except.error e => Except.error e
    | Except.ok linear_amount => Except.ok (satAddU64 cliff_released linear_amount)

/-- `Stream::calculate_step_amount` (stream.rs lines 221-235).  The
source divides `elapsed_time` by `rate_interval_in_seconds` with the
unchecked `/`, which panics on a zero interval (`PanicDivByZero`), and
casts `rate_amount` to `i64` before the checked multiplication. -/
def Stream.calculate_step_amount (s : Stream) (current_time : Int) : Except Err Nat :=
  if current_time < s.start_time then Except.ok 0
  else
    let elapsed_time := satSubI64 current_time s.start_time
    if s.rate_interval_in_seconds = 0 then Except.error Err.PanicDivByZero
    else
      let intervals_passed : Nat := elapsed_time.toNat / s.rate_interval_in_seconds
      match checkedMulI64 (intervals_passed : Int) (wrapU64ToI64 s.rate_amount) with
      | none => Except.error Err.MathOverflow
      | some total_released => Except.ok (min (wrapI64ToU64 total_released) s.deposited_amount)

/-- `Stream::calculate_custom_amount` (stream.rs lines 238-242):
explicit fallback to Linear. -/
def Stream.calculate_custom_amount (s : Stream) (current_time : Int) : Except Err Nat :=
  s.calculate_linear_amount current_time

/-- `Stream::calculate_streamed_amount` (stream.rs lines 148-159). -/
def Stream.calculate_streamed_amount (s : Stream) (current_time : Int) : Except Err Nat :=
  if current_time < s.start_time then Except.ok 0
  else
    match s.stream_type with
    | StreamType.Linear => s.calculate_linear_amount current_time
    | StreamType.Cliff => s.calculate_cliff_amount current_time
    | StreamType.Step => s.calculate_step_amount current_time
    | StreamType.Custom => s.calculate_custom_amount current_time

/-- `Stream::withdrawable_amount` (stream.rs lines 138-145); the
`saturating_sub` on `u64` is `Nat` subtraction. -/
def Stream.withdrawable_amount (s : Stream) (current_time : Int) : Except Err Nat :=
  if s.status ≠ StreamStatus.Streaming then Except.ok 0
  else
    match s.calculate_streamed_amount current_time with
    | Except.error e => Except.error e
    | Except.ok total_streamed => Except.ok (total_streamed - s.withdrawn_amount)

/-- `Stream::can_cancel` (stream.rs lines 255-263). -/
def Stream.can_cancel (s : Stream) (authority : Nat) : Bool :=
  match s.status with
  | StreamStatus.Streaming =>
      (s.cancelable_by_sender && authority == s.sender) ||
      (s.cancelable_by_recipient && authority == s.recipient)
  | StreamStatus.Paused =>
      (s.cancelable_by_sender && authority == s.sender) ||
      (s.cancelable_by_recipient && authority == s.recipient)
  | StreamStatus.Scheduled =>
      (s.cancelable_by_sender && authority == s.sender) ||
      (s.cancelable_by_recipient && authority == s.recipient)
  | _ => false

/-- `Stream::calculate_fees` (stream.rs lines 266-288).  Note: the
source performs no validation of `fee_percentage + partner_fee_percentage`. -/
def Stream.calculate_fees (s : Stream) (amount : Nat) : Except Err (Nat × Nat) :=
  let platform_result : Except Err Nat :=
    if 0 < s.fee_percentage then
      match checkedMulU128 amount s.fee_percentage with
      | none => Except.error Err.MathOverflow
      | some p =>
        match checkedDivU128 p 10000 with
        | none => Except.error Err.MathOverflow
        | some q => Except.ok (truncU128ToU64 q)
    else Except.ok 0
  let partner_result : Except Err Nat :=
    if 0 < s.partner_fee_percentage then
      match checkedMulU128 amount s.partner_fee_percentage with
      | none => Except.error Err.MathOverflow
      | some p =>
        match checkedDivU128 p 10000 with
        | none => Except.error Err.MathOverflow
        | some q => Except.ok (truncU128ToU64 q)
    else Except.ok 0
  match platform_result with
  | Except.error e => Except.error e
  | Except.ok platform_fee =>
    match partner_result with
    | Except.error e => Except.error e
    | Except.ok partner_fee => Except.ok (platform_fee, partner_fee)

end SF

namespace utils

/-- `utils::is_valid_status_transition` (state/mod.rs lines 262-273). -/
def is_valid_status_transition (a b : SF.StreamStatus) : Bool :=
  match a, b with
  | SF.StreamStatus.Scheduled, SF.StreamStatus.Streaming => true
  | SF.StreamStatus.Scheduled, SF.StreamStatus.Cancelled => true
  | SF.StreamStatus.Streaming, SF.StreamStatus.Paused => true
  | SF.StreamStatus.Streaming, SF.StreamStatus.Cancelled => true
  | SF.StreamStatus.Streaming, SF.StreamStatus.Completed => true
  | SF.StreamStatus.Paused, SF.StreamStatus.Streaming => true
  | SF.StreamStatus.Paused, SF.StreamStatus.Cancelled => true
  | _, _ => false

end utils

namespace WD

/-- `StreamType` as used by the `impl Stream` block and unit tests inside
`instructions/withdraw.rs` (only two variants). -/
inductive StreamType where
  | Linear
  | Cliff
  deriving DecidableEq

/-- The stream record shape used by `instructions/withdraw.rs` (see its
unit tests, which construct exactly these fields). -/
structure Stream where
  sender : Nat
  recipient : Nat
  mint : Nat
  deposited_amount : Nat
  withdrawn_amount : Nat
  start_time : Int
  end_time : Option Int
  stream_type : StreamType
  is_active : Bool
  cliff_amount : Option Nat
  last_withdrawn_at : Int
  bump : Nat

/-- Core of `Stream::calculate_withdrawable_amount` (withdraw.rs lines
158-200), after the start-time and past-end early returns.  The two
`match` arms of the source both compute
`end_time.unwrap_or(current_time).checked_sub(start_time)`; the Cliff
arm first returns 0 while `current_time < start_time + cliff_amount`
(a plain `+`, modelled wrapping). -/
def Stream.withdrawable_core (s : Stream) (current_time : Int) : Except Err Nat :=
  match checkedSubI64 current_time s.start_time with
  | none => Except.error Err.MathOverflow
  | some time_elapsed =>
    if s.stream_type = StreamType.Cliff ∧
        current_time < wrapToI64 (s.start_time + ((s.cliff_amount.getD 0 : Nat) : Int)) then
      Except.ok 0
    else
      match checkedSubI64 (s.end_time.getD current_time) s.start_time with
      | none => Except.error Err.MathOverflow
      | some total_duration =>
        if total_duration = 0 then Except.ok (s.deposited_amount - s.withdrawn_amount)
        else
          match checkedMulU128 s.deposited_amount (castI64ToU128 time_elapsed) with
          | none => Except.error Err.MathOverflow
          | some p =>
            match checkedDivU128 p (castI64ToU128 total_duration) with
            | none => Except.error Err.MathOverflow
            | some q =>
              let streamed_amount := min (truncU128ToU64 q) s.deposited_amount
              Except.ok (streamed_amount - s.withdrawn_amount)

/-- `Stream::calculate_withdrawable_amount` (withdraw.rs lines 145-201).
The `checked_sub(...).unwrap_or(0)` patterns on `u64` are `Nat`
subtraction. -/
def Stream.calculate_withdrawable_amount (s : Stream) (current_time : Int) : Except Err Nat :=
  if current_time < s.start_time then Except.ok 0
  else
    match s.end_time with
    | some end_time =>
      if end_time ≤ current_time then Except.ok (s.deposited_amount - s.withdrawn_amount)
      else s.withdrawable_core current_time
    | none => s.withdrawable_core current_time

/-- The state-mutating part of the withdraw `handler` (withdraw.rs lines
65-98): validation, the `withdrawn_amount`/`last_withdrawn_at` update
and the completion transition.  The token transfer and event emission
are external collaborators.  On an error the account mutation is rolled
back by the execution environment, so no state is returned. -/
def handler (s : Stream) (current_time : Int) (amount : Option Nat) : Except Err (Stream × Nat) :=
  match s.calculate_withdrawable_amount current_time with
  | Except.error e => Except.error e
  | Except.ok withdrawable =>
    if withdrawable = 0 then Except.error Err.NoTokensToWithdraw
    else
      let amount_result : Except Err Nat :=
        match amount with
        | some requested_amount =>
          if withdrawable < requested_amount then
            Except.error Err.InsufficientWithdrawableBalance
          else Except.ok requested_amount
        | none => Except.ok withdrawable
      match amount_result with
      | Except.error e => Except.error e
      | Except.ok withdrawal_amount =>
        match checkedAddU64 s.withdrawn_amount withdrawal_amount with
        | none => Except.error Err.MathOverflow
        | some new_withdrawn =>
          let s1 := { s with withdrawn_amount := new_withdrawn,
                             last_withdrawn_at := current_time }
          if s1.deposited_amount ≤ s1.withdrawn_amount then
            Except.ok ({ s1 with is_active := false, end_time := some current_time },
                       withdrawal_amount)
          else Except.ok (s1, withdrawal_amount)

end WD

namespace CS

/-- The stream fields read by `CancelStream::calculate_amounts`
(cancel_stream.rs lines 104-134); note this shape calls the deposit
`amount`. -/
structure Stream where
  sender : Nat
  recipient : Nat
  mint : Nat
  amount : Nat
  withdrawn_amount : Nat
  start_time : Int
  end_time : Int

/-- `CancelStream::calculate_amounts` (cancel_stream.rs lines 104-134).
`escrow_amount` is the custody balance (`escrow_token_account.amount`).
The source returns `Result` but every path is `Ok`, so the embedding is
a pure pair `(available_streamed, remaining_amount)`.  The `u128`
multiplication cannot exceed 2^128 for `u64`/`i64` inputs, matching the
unchecked `*` of the source. -/
def Stream.calculate_amounts (s : Stream) (current_time : Int) (escrow_amount : Nat) :
    Nat × Nat :=
  let elapsed_time := satSubI64 current_time s.start_time
  let stream_duration := satSubI64 s.end_time s.start_time
  let streamed_amount :=
    if stream_duration ≤ elapsed_time then s.amount
    else if elapsed_time ≤ 0 then 0
    else truncU128ToU64 (s.amount * elapsed_time.toNat / stream_duration.toNat)
  let available_streamed := streamed_amount - s.withdrawn_amount
  let remaining_amount := escrow_amount - available_streamed
  (available_streamed, remaining_amount)

/-- The cancel gates of the `CancelStream` accounts struct and handler
(cancel_stream.rs lines 8-22 and 62-71), in constraint order: the
stream's status must be the active status
(`StreamError::StreamNotActive`), and the signer must be the stream's
sender (`StreamError::Unauthorized`).  The `cancelable_by_*` flags and
the recipient are bound but never consulted, exactly as in the source.
The source writes `StreamStatus::Active`; the state enum it imports has
no such variant, and the repository identifies activeness with
`Streaming` (`Stream::is_active` in state/stream.rs), so the check is
modelled as `status = Streaming`. -/
def cancel_gate (status : SF.StreamStatus) (sender recipient authority : Nat)
    (cancelable_by_sender cancelable_by_recipient : Bool) : Except Err Unit :=
  if status ≠ SF.StreamStatus.Streaming then Except.error Err.StreamNotActive
  else if authority ≠ sender then Except.error Err.Unauthorized
  else Except.ok ()

end CS

namespace LIB

/-- The validation gates of `cancel_stream` in lib.rs (lines 132-144),
in source order: the already-cancelled check, the paused check, then
the authority/permission check. -/
def cancel_gate (canceled_at : Option Int) (paused : Bool)
    (authority sender recipient : Nat)
    (cancelable_by_sender cancelable_by_recipient : Bool) : Except Err Unit :=
  if canceled_at.isSome then Except.error Err.StreamAlreadyCanceled
  else if paused then Except.error Err.StreamPaused
  else
    let can_cancel :=
      if authority = sender then cancelable_by_sender
      else if authority = recipient then cancelable_by_recipient
      else false
    if can_cancel then Except.ok () else Except.error Err.UnauthorizedCancel

end LIB

/-- Modelled from the spec (section 4.1, Linear policy), for refinement
comparison only: 0 before `start_time`, the full amount at/after
`end_time`, otherwise the floored proportional amount computed in an
unbounded domain. -/
def linear_spec (total_amount : Nat) (start_time end_time now : Int) : Nat :=
  if now < start_time then 0
  else if end_time ≤ now then total_amount
  else total_amount * (now - start_time).toNat / (end_time - start_time).toNat

/-! Concrete records used by witnesses and counterexamples. -/

/-- A baseline stream for building concrete instances. -/
def baseStream : SF.Stream :=
  { sender := 1, recipient := 2, mint := 3,
    deposited_amount := 1000, withdrawn_amount := 0,
    start_time := 100, end_time := 200, last_withdrawn_at := 0,
    rate_amount := 0, rate_interval_in_seconds := 1,
    cancelable_by_sender := true, cancelable_by_recipient := false,
    automatic_withdrawal := false, can_topup := false, can_update_rate := false,
    status := SF.StreamStatus.Streaming, stream_type := SF.StreamType.Linear,
    cliff_amount := 0, cliff_time := 0,
    fee_percentage := 0, partner_fee_percentage := 0, bump := 0 }

/-- Scenario-1 Linear stream: 1000 over [100, 200]. -/
def sLin : SF.Stream := baseStream

/-- Linear stream with extreme `i64` timestamps: the duration
`end_time - start_time` exceeds `i64::MAX`, so `saturating_sub` clamps
it. -/
def sBig : SF.Stream :=
  { baseStream with start_time := -(2 ^ 63), end_time := 2 ^ 63 - 1 }

/-- Step stream whose `rate_amount` does not fit in `i64`: the
`rate_amount as i64` cast wraps to `-5`. -/
def sC6 : SF.Stream :=
  { baseStream with stream_type := SF.StreamType.Step,
                    deposited_amount := 2 ^ 64 - 1,
                    start_time := 0, end_time := 100,
                    rate_amount := 2 ^ 64 - 5, rate_interval_in_seconds := 1 }

/-- Fully degenerate Cliff stream: `start_time = cliff_time = end_time`. -/
def sDeg : SF.Stream :=
  { baseStream with stream_type := SF.StreamType.Cliff,
                    start_time := 100, cliff_time := 100, end_time := 100 }

/-- Scenario-3 Cliff stream: 1000 over [100, 200] with a pure cliff gate
at 150 (`cliff_amount = 0`). -/
def s3 : SF.Stream :=
  { baseStream with stream_type := SF.StreamType.Cliff, cliff_time := 150 }

/-- Stream whose fee configuration sums to 18000 basis points. -/
def sFee : SF.Stream :=
  { baseStream with fee_percentage := 9000, partner_fee_percentage := 9000 }

/-- A completed stream. -/
def sComp : SF.Stream :=
  { baseStream with status := SF.StreamStatus.Completed, withdrawn_amount := 1000 }

/-- Cancel-settlement stream: 1000 over [0, 100], nothing withdrawn. -/
def cs0 : CS.Stream :=
  { sender := 1, recipient := 2, mint := 3, amount := 1000,
    withdrawn_amount := 0, start_time := 0, end_time := 100 }

/-- Withdraw-shape stream matching the withdraw.rs unit test: 1000 over
[100, 200], Linear, active. -/
def ws0 : WD.Stream :=
  { sender := 1, recipient := 2, mint := 3,
    deposited_amount := 1000, withdrawn_amount := 0,
    start_time := 100, end_time := some 200,
    stream_type := WD.StreamType.Linear, is_active := true,
    cliff_amount := none, last_withdrawn_at := 100, bump := 255 }

/-! Helper lemmas about the machine-integer model. -/

theorem satSubI64_of_bounds (a b : Int) (h1 : I64_MIN ≤ a - b) (h2 : a - b ≤ I64_MAX) :
    satSubI64 a b = a - b := by
  unfold satSubI64
  rw [min_eq_left h2, max_eq_right h1]

theorem satSubI64_le (a b : Int) : satSubI64 a b ≤ I64_MAX := by
  unfold satSubI64
  exact max_le (by decide) (min_le_right _ _)

theorem satSubI64_nonneg (a b : Int) (h : b ≤ a) : 0 ≤ satSubI64 a b := by
  unfold satSubI64
  exact le_trans (le_min (by omega) (by decide)) (le_max_right _ _)

theorem satSubI64_pos (a b : Int) (h : b < a) : 0 < satSubI64 a b := by
  unfold satSubI64
  exact lt_of_lt_of_le (lt_min (by omega) (by decide)) (le_max_right _ _)

theorem satSubI64_mono_left (a b c : Int) (h : a ≤ b) :
    satSubI64 a c ≤ satSubI64 b c := by
  unfold satSubI64
  exact max_le_max le_rfl (min_le_min (by omega) le_rfl)

theorem castI64ToU128_of_nonneg (x : Int) (h0 : 0 ≤ x) (h1 : x ≤ I64_MAX) :
    castI64ToU128 x = x.toNat := by
  unfold castI64ToU128
  rw [Int.emod_eq_of_lt h0 (by unfold I64_MAX at h1; omega)]

theorem toNat_le_pow63 (x : Int) (h : x ≤ I64_MAX) : x.toNat ≤ 2 ^ 63 - 1 := by
  unfold I64_MAX at h
  omega

theorem nat_mul_div_le_left (A el du : Nat) (h : el ≤ du) (hdu : 0 < du) :
    A * el / du ≤ A := by
  calc A * el / du ≤ A * du / du := Nat.div_le_div_right (Nat.mul_le_mul_left A h)
    _ = A := Nat.mul_div_cancel A hdu

/-- Closed form of `calculate_linear_amount` for a well-formed window:
the saturated elapsed/duration quotient, capped at the deposit. -/
theorem calculate_linear_amount_closed (s : SF.Stream)
    (hA : s.deposited_amount < U64_MOD)
    (hab : s.start_time < s.end_time)
    (t : Int) (ht : s.start_time ≤ t) :
    s.calculate_linear_amount t =
      Except.ok (min (s.deposited_amount *
          (satSubI64 (min t s.end_time) s.start_time).toNat /
          (satSubI64 s.end_time s.start_time).toNat) s.deposited_amount) := by
  have hdurpos : 0 < satSubI64 s.end_time s.start_time := satSubI64_pos _ _ hab
  have hdurle : satSubI64 s.end_time s.start_time ≤ I64_MAX := satSubI64_le _ _
  have hmins : s.start_time ≤ min t s.end_time := le_min ht (le_of_lt hab)
  have helnn : 0 ≤ satSubI64 (min t s.end_time) s.start_time := satSubI64_nonneg _ _ hmins
  have helle : satSubI64 (min t s.end_time) s.start_time ≤ I64_MAX := satSubI64_le _ _
  have heldu : satSubI64 (min t s.end_time) s.start_time ≤ satSubI64 s.end_time s.start_time :=
    satSubI64_mono_left _ _ _ (min_le_right _ _)
  have hc1 : castI64ToU128 (satSubI64 (min t s.end_time) s.start_time) =
      (satSubI64 (min t s.end_time) s.start_time).toNat :=
    castI64ToU128_of_nonneg _ helnn helle
  have hc2 : castI64ToU128 (satSubI64 s.end_time s.start_time) =
      (satSubI64 s.end_time s.start_time).toNat :=
    castI64ToU128_of_nonneg _ (le_of_lt hdurpos) hdurle
  have helN : (satSubI64 (min t s.end_time) s.start_time).toNat ≤
      (satSubI64 s.end_time s.start_time).toNat := Int.toNat_le_toNat heldu
  have hduN : 0 < (satSubI64 s.end_time s.start_time).toNat := by omega
  have hmulbound : s.deposited_amount *
      (satSubI64 (min t s.end_time) s.start_time).toNat < U128_MOD := by
    calc s.deposited_amount * (satSubI64 (min t s.end_time) s.start_time).toNat
        ≤ (2 ^ 64 - 1) * (2 ^ 63 - 1) := by
          exact Nat.mul_le_mul (by unfold U64_MOD at hA; omega) (toNat_le_pow63 _ helle)
      _ < U128_MOD := by norm_num [U128_MOD]
  have hq : s.deposited_amount * (satSubI64 (min t s.end_time) s.start_time).toNat /
      (satSubI64 s.end_time s.start_time).toNat ≤ s.deposited_amount :=
    nat_mul_div_le_left _ _ _ helN hduN
  simp only [SF.Stream.calculate_linear_amount, checkedMulU128, checkedDivU128, hc1, hc2]
  rw [if_neg (by omega : ¬ satSubI64 s.end_time s.start_time = 0)]
  rw [if_pos hmulbound]
  dsimp only
  rw [if_neg (by omega : ¬ (satSubI64 s.end_time s.start_time).toNat = 0)]
  dsimp only
  have htr : truncU128ToU64 (s.deposited_amount *
      (satSubI64 (min t s.end_time) s.start_time).toNat /
      (satSubI64 s.end_time s.start_time).toNat) =
      s.deposited_amount * (satSubI64 (min t s.end_time) s.start_time).toNat /
      (satSubI64 s.end_time s.start_time).toNat :=
    Nat.mod_eq_of_lt (lt_of_le_of_lt hq hA)
  rw [htr]

/-- Closed form of `calculate_cliff_amount` once the cliff has passed:
the cliff amount plus the saturated linear quotient over the remainder. -/
theorem calculate_cliff_amount_closed (s : SF.Stream)
    (hA : s.deposited_amount < U64_MOD)
    (hcA : s.cliff_amount < U64_MOD)
    (hab : s.start_time < s.end_time)
    (t : Int) (htc : s.cliff_time ≤ t) (hta : s.start_time ≤ t) :
    s.calculate_cliff_amount t =
      Except.ok (s.cliff_amount +
        (if s.start_time < t then
          (s.deposited_amount - s.cliff_amount) *
            (satSubI64 (min t s.end_time) s.start_time).toNat /
            (satSubI64 s.end_time s.start_time).toNat
         else 0)) := by
  have h1 : ¬ t < s.cliff_time := by omega
  have h2 : ¬ t < s.start_time := by omega
  have hdurpos : 0 < satSubI64 s.end_time s.start_time := satSubI64_pos _ _ hab
  have hdurle : satSubI64 s.end_time s.start_time ≤ I64_MAX := satSubI64_le _ _
  have hmins : s.start_time ≤ min t s.end_time := le_min hta (le_of_lt hab)
  have helnn : 0 ≤ satSubI64 (min t s.end_time) s.start_time := satSubI64_nonneg _ _ hmins
  have helle : satSubI64 (min t s.end_time) s.start_time ≤ I64_MAX := satSubI64_le _ _
  have heldu : satSubI64 (min t s.end_time) s.start_time ≤ satSubI64 s.end_time s.start_time :=
    satSubI64_mono_left _ _ _ (min_le_right _ _)
  have hc1 : castI64ToU128 (satSubI64 (min t s.end_time) s.start_time) =
      (satSubI64 (min t s.end_time) s.start_time).toNat :=
    castI64ToU128_of_nonneg _ helnn helle
  have hc2 : castI64ToU128 (satSubI64 s.end_time s.start_time) =
      (satSubI64 s.end_time s.start_time).toNat :=
    castI64ToU128_of_nonneg _ (le_of_lt hdurpos) hdurle
  have helN : (satSubI64 (min t s.end_time) s.start_time).toNat ≤
      (satSubI64 s.end_time s.start_time).toNat := Int.toNat_le_toNat heldu
  have hduN : 0 < (satSubI64 s.end_time s.start_time).toNat := by omega
  by_cases hst : s.start_time < t
  · by_cases hrem : 0 < s.deposited_amount - s.cliff_amount
    · have hmulbound : (s.deposited_amount - s.cliff_amount) *
          (satSubI64 (min t s.end_time) s.start_time).toNat < U128_MOD := by
        calc (s.deposited_amount - s.cliff_amount) *
            (satSubI64 (min t s.end_time) s.start_time).toNat
            ≤ (2 ^ 64 - 1) * (2 ^ 63 - 1) := by
              exact Nat.mul_le_mul (by unfold U64_MOD at hA; omega) (toNat_le_pow63 _ helle)
          _ < U128_MOD := by norm_num [U128_MOD]
      have hq : (s.deposited_amount - s.cliff_amount) *
          (satSubI64 (min t s.end_time) s.start_time).toNat /
          (satSubI64 s.end_time s.start_time).toNat ≤
          s.deposited_amount - s.cliff_amount :=
        nat_mul_div_le_left _ _ _ helN hduN
      simp only [SF.Stream.calculate_cliff_amount, checkedMulU128, checkedDivU128, hc1, hc2]
      rw [if_neg h1, if_neg h2, if_pos htc, if_pos (And.intro hst hrem), if_pos hdurpos,
        if_pos hmulbound]
      dsimp only
      rw [if_neg (by omega : ¬ (satSubI64 s.end_time s.start_time).toNat = 0)]
      dsimp only
      have htr : truncU128ToU64 ((s.deposited_amount - s.cliff_amount) *
          (satSubI64 (min t s.end_time) s.start_time).toNat /
          (satSubI64 s.end_time s.start_time).toNat) =
          (s.deposited_amount - s.cliff_amount) *
          (satSubI64 (min t s.end_time) s.start_time).toNat /
          (satSubI64 s.end_time s.start_time).toNat := by
        unfold truncU128ToU64
        exact Nat.mod_eq_of_lt (by omega)
      rw [htr, if_pos hst]
      unfold satAddU64
      rw [min_eq_left (by unfold U64_MOD at hA hcA ⊢; omega)]
    · have hrem0 : s.deposited_amount - s.cliff_amount = 0 := by omega
      simp only [SF.Stream.calculate_cliff_amount]
      rw [if_neg h1, if_neg h2, if_pos htc,
        if_neg (by intro hand; exact hrem hand.2)]
      dsimp only
      rw [if_pos hst, hrem0]
      unfold satAddU64
      rw [Nat.zero_mul, Nat.zero_div, min_eq_left (by unfold U64_MOD at hcA ⊢; omega)]
  · simp only [SF.Stream.calculate_cliff_amount]
    rw [if_neg h1, if_neg h2, if_pos htc,
      if_neg (by intro hand; exact hst hand.1)]
    dsimp only
    rw [if_neg hst]
    unfold satAddU64
    rw [min_eq_left (by unfold U64_MOD at hcA ⊢; omega)]

/-- Any successful linear computation is capped at the deposit by the
final `min`. -/
theorem linear_ok_le (s : SF.Stream) (t : Int) (v : Nat)
    (h : s.calculate_linear_amount t = Except.ok v) : v ≤ s.deposited_amount := by
  unfold SF.Stream.calculate_linear_amount at h
  dsimp only at h
  split at h
  · injection h with hv
    omega
  · split at h
    · simp at h
    · split at h
      · simp at h
      · injection h with hv
        rw [← hv]
        exact min_le_right _ _

/-- Any successful step computation is capped at the deposit by the
final `min`. -/
theorem step_ok_le (s : SF.Stream) (t : Int) (v : Nat)
    (h : s.calculate_step_amount t = Except.ok v) : v ≤ s.deposited_amount := by
  unfold SF.Stream.calculate_step_amount at h
  dsimp only at h
  split at h
  · injection h with hv
    omega
  · split at h
    · simp at h
    · split at h
      · simp at h
      · injection h with hv
        rw [← hv]
        exact min_le_right _ _

/-- Value of a successful step computation when `rate_amount` fits in
`i64`: whole intervals times the rate, capped at the deposit. -/
theorem step_ok_elim (s : SF.Stream) (t : Int) (v : Nat)
    (hrate : s.rate_amount < 2 ^ 63) (ht : s.start_time ≤ t)
    (h : s.calculate_step_amount t = Except.ok v) :
    v = min ((satSubI64 t s.start_time).toNat / s.rate_interval_in_seconds *
      s.rate_amount) s.deposited_amount := by
  have hwrap : wrapU64ToI64 s.rate_amount = (s.rate_amount : Int) := by
    unfold wrapU64ToI64
    rw [if_pos (by exact_mod_cast hrate)]
  unfold SF.Stream.calculate_step_amount at h
  dsimp only at h
  rw [if_neg (by omega : ¬ t < s.start_time)] at h
  by_cases hint : s.rate_interval_in_seconds = 0
  · rw [if_pos hint] at h
    simp at h
  · rw [if_neg hint, hwrap] at h
    unfold checkedMulI64 at h
    split at h
    · simp at h
    · rename_i total heq
      split at heq
      · rename_i hb
        have htot := Option.some.inj heq
        have hv := Except.ok.inj h
        rw [← htot] at hv
        have hx : ((((satSubI64 t s.start_time).toNat /
            s.rate_interval_in_seconds : Nat) : Int) * (s.rate_amount : Int)) =
            (((satSubI64 t s.start_time).toNat / s.rate_interval_in_seconds *
              s.rate_amount : Nat) : Int) := by
          push_cast
          ring
        rw [hx] at hv hb
        have hw : wrapI64ToU64 ((((satSubI64 t s.start_time).toNat /
            s.rate_interval_in_seconds * s.rate_amount : Nat) : Int)) =
            (satSubI64 t s.start_time).toNat / s.rate_interval_in_seconds *
              s.rate_amount := by
          unfold wrapI64ToU64
          unfold I64_MIN I64_MAX at hb
          omega
        rw [hw] at hv
        exact hv.symm
      · simp at heq

/-- Before the cliff time the cliff computation returns 0. -/
theorem cliff_guard_zero (s : SF.Stream) (t : Int) (h : t < s.cliff_time) :
    s.calculate_cliff_amount t = Except.ok 0 := by
  unfold SF.Stream.calculate_cliff_amount
  rw [if_pos h]

/-- Monotonicity of the linear computation in the query time. -/
theorem linear_value_mono (s : SF.Stream)
    (hA : s.deposited_amount < U64_MOD) (hab : s.start_time < s.end_time)
    (t1 t2 : Int) (ht1 : s.start_time ≤ t1) (h12 : t1 ≤ t2)
    (v1 v2 : Nat)
    (h1 : s.calculate_linear_amount t1 = Except.ok v1)
    (h2 : s.calculate_linear_amount t2 = Except.ok v2) : v1 ≤ v2 := by
  rw [calculate_linear_amount_closed s hA hab t1 ht1] at h1
  rw [calculate_linear_amount_closed s hA hab t2 (le_trans ht1 h12)] at h2
  have hv1 := Except.ok.inj h1
  have hv2 := Except.ok.inj h2
  rw [← hv1, ← hv2]
  have hel : satSubI64 (min t1 s.end_time) s.start_time ≤
      satSubI64 (min t2 s.end_time) s.start_time :=
    satSubI64_mono_left _ _ _ (min_le_min h12 le_rfl)
  have helN := Int.toNat_le_toNat hel
  exact min_le_min (Nat.div_le_div_right (Nat.mul_le_mul_left _ helN)) le_rfl

/-- C5: for every stream record satisfying the creation invariants
(`start_time < end_time`, `cliff_amount <= deposited_amount`, and the
`u64` range of the deposit; a zero `rate_interval` makes the Step policy
panic rather than return) and for every query time, any streamed amount
the code returns is at most `deposited_amount`, under all four vesting
policies. -/
theorem streamed_amount_bounded :
    ∀ (s : SF.Stream) (t : Int) (v : Nat),
      s.deposited_amount < U64_MOD →
      s.start_time < s.end_time →
      s.cliff_amount ≤ s.deposited_amount →
      s.calculate_streamed_amount t = Except.ok v →
      v ≤ s.deposited_amount := by
  intro s t v hA hab hcliff h
  unfold SF.Stream.calculate_streamed_amount at h
  by_cases ht : t < s.start_time
  · rw [if_pos ht] at h
    have := Except.ok.inj h
    omega
  · rw [if_neg ht] at h
    cases htyp : s.stream_type <;> rw [htyp] at h <;> dsimp only at h
    · exact linear_ok_le s t v h
    · by_cases hc : t < s.cliff_time
      · rw [cliff_guard_zero s t hc] at h
        have := Except.ok.inj h
        omega
      · have hcA : s.cliff_amount < U64_MOD := lt_of_le_of_lt hcliff hA
        rw [calculate_cliff_amount_closed s hA hcA hab t (by omega) (by omega)] at h
        have hv := Except.ok.inj h
        by_cases hst : s.start_time < t
        · rw [if_pos hst] at hv
          have heldu : satSubI64 (min t s.end_time) s.start_time ≤
              satSubI64 s.end_time s.start_time :=
            satSubI64_mono_left _ _ _ (min_le_right _ _)
          have helN := Int.toNat_le_toNat heldu
          have hduN : 0 < (satSubI64 s.end_time s.start_time).toNat := by
            have := satSubI64_pos s.end_time s.start_time hab
            omega
          have hq := nat_mul_div_le_left (s.deposited_amount - s.cliff_amount)
            ((satSubI64 (min t s.end_time) s.start_time).toNat)
            ((satSubI64 s.end_time s.start_time).toNat) helN hduN
          omega
        · rw [if_neg hst] at hv
          omega
    · exact step_ok_le s t v h
    · unfold SF.Stream.calculate_custom_amount at h
      exact linear_ok_le s t v h

/-- Witness for C5 at the Scenario-1 Linear stream, halfway through. -/
theorem streamed_amount_bounded_witness :
    sLin.calculate_streamed_amount 150 = Except.ok 500 ∧ (500 : Nat) ≤ sLin.deposited_amount :=
  ⟨rfl, streamed_amount_bounded sLin 150 500 (by decide) (by decide) (by decide) rfl⟩

/-- C6 counterexample: a Step stream satisfying the creation invariants
(`start_time < end_time`, `cliff_amount <= deposited_amount`,
`rate_interval > 0`) whose streamed amount strictly decreases from
`t = 1` to `t = 2`, because `rate_amount = 2^64 - 5` wraps to `-5` in
the `as i64` cast. -/
theorem streamed_amount_monotone_cex :
    ¬ (∀ (s : SF.Stream) (t1 t2 : Int) (v1 v2 : Nat),
        s.start_time < s.end_time →
        s.cliff_amount ≤ s.deposited_amount →
        0 < s.rate_interval_in_seconds →
        t1 ≤ t2 →
        s.calculate_streamed_amount t1 = Except.ok v1 →
        s.calculate_streamed_amount t2 = Except.ok v2 →
        v1 ≤ v2) := by
  intro hcl
  have e1 : sC6.calculate_streamed_amount 1 = Except.ok (2 ^ 64 - 5) := rfl
  have e2 : sC6.calculate_streamed_amount 2 = Except.ok (2 ^ 64 - 10) := rfl
  have := hcl sC6 1 2 (2 ^ 64 - 5) (2 ^ 64 - 10) (by decide) (by decide) (by decide)
    (by decide) e1 e2
  exact absurd this (by decide)

/-- C6 amended: for every stream record satisfying the creation
invariants, with the deposit in `u64` range and additionally
`rate_amount < 2^63` (so the `as i64` cast in the Step policy is
value-preserving), the streamed amount is monotone in the query time
whenever both queries succeed, under all four vesting policies. -/
theorem streamed_amount_monotone_amended :
    ∀ (s : SF.Stream) (t1 t2 : Int) (v1 v2 : Nat),
      s.deposited_amount < U64_MOD →
      s.start_time < s.end_time →
      s.cliff_amount ≤ s.deposited_amount →
      s.rate_amount < 2 ^ 63 →
      t1 ≤ t2 →
      s.calculate_streamed_amount t1 = Except.ok v1 →
      s.calculate_streamed_amount t2 = Except.ok v2 →
      v1 ≤ v2 := by
  intro s t1 t2 v1 v2 hA hab hcliff hrate h12 h1 h2
  unfold SF.Stream.calculate_streamed_amount at h1 h2
  by_cases hlt1 : t1 < s.start_time
  · rw [if_pos hlt1] at h1
    have := Except.ok.inj h1
    omega
  · have hlt2 : ¬ t2 < s.start_time := by omega
    rw [if_neg hlt1] at h1
    rw [if_neg hlt2] at h2
    have ht1' : s.start_time ≤ t1 := by omega
    have ht2' : s.start_time ≤ t2 := by omega
    cases htyp : s.stream_type <;> rw [htyp] at h1 h2 <;> dsimp only at h1 h2
    · exact linear_value_mono s hA hab t1 t2 ht1' h12 v1 v2 h1 h2
    · by_cases hc1 : t1 < s.cliff_time
      · rw [cliff_guard_zero s t1 hc1] at h1
        have := Except.ok.inj h1
        omega
      · have hcA : s.cliff_amount < U64_MOD := lt_of_le_of_lt hcliff hA
        rw [calculate_cliff_amount_closed s hA hcA hab t1 (by omega) ht1'] at h1
        rw [calculate_cliff_amount_closed s hA hcA hab t2 (by omega) ht2'] at h2
        have hv1 := Except.ok.inj h1
        have hv2 := Except.ok.inj h2
        by_cases hst1 : s.start_time < t1
        · have hst2 : s.start_time < t2 := by omega
          rw [if_pos hst1] at hv1
          rw [if_pos hst2] at hv2
          have hel : satSubI64 (min t1 s.end_time) s.start_time ≤
              satSubI64 (min t2 s.end_time) s.start_time :=
            satSubI64_mono_left _ _ _ (min_le_min h12 le_rfl)
          have helN := Int.toNat_le_toNat hel
          have hmono : (s.deposited_amount - s.cliff_amount) *
              (satSubI64 (min t1 s.end_time) s.start_time).toNat /
              (satSubI64 s.end_time s.start_time).toNat ≤
              (s.deposited_amount - s.cliff_amount) *
              (satSubI64 (min t2 s.end_time) s.start_time).toNat /
              (satSubI64 s.end_time s.start_time).toNat :=
            Nat.div_le_div_right (Nat.mul_le_mul_left _ helN)
          omega
        · rw [if_neg hst1] at hv1
          omega
    · have e1 := step_ok_elim s t1 v1 hrate ht1' h1
      have e2 := step_ok_elim s t2 v2 hrate ht2' h2
      rw [e1, e2]
      have hel : satSubI64 t1 s.start_time ≤ satSubI64 t2 s.start_time :=
        satSubI64_mono_left _ _ _ h12
      have helN := Int.toNat_le_toNat hel
      exact min_le_min (Nat.mul_le_mul_right _ (Nat.div_le_div_right helN)) le_rfl
    · unfold SF.Stream.calculate_custom_amount at h1 h2
      exact linear_value_mono s hA hab t1 t2 ht1' h12 v1 v2 h1 h2

/-- Witness for the amended C6 at the Scenario-1 Linear stream. -/
theorem streamed_amount_monotone_amended_witness :
    sLin.calculate_streamed_amount 120 = Except.ok 200 ∧
    sLin.calculate_streamed_amount 150 = Except.ok 500 ∧ (200 : Nat) ≤ 500 :=
  ⟨rfl, rfl, streamed_amount_monotone_amended sLin 120 150 200 500 (by decide) (by decide)
    (by decide) (by decide) (by decide) (by exact rfl) (by exact rfl)⟩

/-- C2 counterexample: a Linear stream with `start_time < end_time`
whose duration overflows `i64`, so the saturating subtractions clamp
both elapsed and duration to `i64::MAX` and the code returns the full
deposit (1000) where the claimed widened formula gives 500. -/
theorem linear_streamed_formula_cex :
    ¬ (∀ (s : SF.Stream) (t : Int),
        s.stream_type = SF.StreamType.Linear →
        s.start_time < s.end_time →
        s.calculate_streamed_amount t =
          Except.ok (linear_spec s.deposited_amount s.start_time s.end_time t)) := by
  intro hcl
  have h := hcl sBig 0 rfl (by decide)
  have e : sBig.calculate_streamed_amount 0 = Except.ok 1000 := rfl
  rw [e] at h
  have e2 : linear_spec sBig.deposited_amount sBig.start_time sBig.end_time 0 = 500 := rfl
  rw [e2] at h
  exact absurd (Except.ok.inj h) (by decide)

/-- C2 amended: for every Linear stream with `start_time < end_time`,
the deposit in `u64` range, and `end_time - start_time` within `i64`
(so the saturating subtractions are exact), the streamed amount is 0
for `now <= start_time`, the full deposit for `now >= end_time`, and
otherwise the floored widened quotient, i.e. exactly `linear_spec`. -/
theorem linear_streamed_formula_amended :
    ∀ (s : SF.Stream) (t : Int),
      s.stream_type = SF.StreamType.Linear →
      s.deposited_amount < U64_MOD →
      s.start_time < s.end_time →
      s.end_time - s.start_time ≤ I64_MAX →
      s.calculate_streamed_amount t =
        Except.ok (linear_spec s.deposited_amount s.start_time s.end_time t) := by
  intro s t htyp hA hab hfit
  unfold SF.Stream.calculate_streamed_amount
  by_cases ht : t < s.start_time
  · rw [if_pos ht]
    unfold linear_spec
    rw [if_pos ht]
  · rw [if_neg ht, htyp]
    dsimp only
    have ht' : s.start_time ≤ t := by omega
    rw [calculate_linear_amount_closed s hA hab t ht']
    congr 1
    have hdur : satSubI64 s.end_time s.start_time = s.end_time - s.start_time :=
      satSubI64_of_bounds _ _ (by unfold I64_MIN; omega) hfit
    have hel : satSubI64 (min t s.end_time) s.start_time = min t s.end_time - s.start_time :=
      satSubI64_of_bounds _ _ (by unfold I64_MIN; omega)
        (by unfold I64_MAX at hfit ⊢; omega)
    rw [hdur, hel]
    unfold linear_spec
    rw [if_neg ht]
    by_cases hend : s.end_time ≤ t
    · rw [if_pos hend]
      have hmt : min t s.end_time = s.end_time := min_eq_right (by omega)
      rw [hmt]
      have hduN : 0 < (s.end_time - s.start_time).toNat := by omega
      rw [Nat.mul_div_cancel _ hduN]
      exact min_self _
    · rw [if_neg hend]
      have hmt : min t s.end_time = t := min_eq_left (by omega)
      rw [hmt]
      apply min_eq_left
      apply nat_mul_div_le_left
      · omega
      · omega

/-- Witness for the amended C2: the Scenario-1 stream at its midpoint. -/
theorem linear_streamed_formula_amended_witness :
    sLin.calculate_streamed_amount 150 =
      Except.ok (linear_spec sLin.deposited_amount sLin.start_time sLin.end_time 150) ∧
    linear_spec sLin.deposited_amount sLin.start_time sLin.end_time 150 = 500 :=
  ⟨linear_streamed_formula_amended sLin 150 rfl (by decide) (by decide) (by decide), rfl⟩

/-- C7 counterexample: a Cliff stream with
`start_time = cliff_time = end_time` (allowed by the claim's
`start <= cliff <= end`) where the code streams 0 at the cliff but the
claimed formula (`cliff_amount` plus the Linear formula on the
remainder, which is the full remainder at/after `end_time`) gives 1000. -/
theorem cliff_streamed_formula_cex :
    ¬ (∀ (s : SF.Stream) (t : Int),
        s.stream_type = SF.StreamType.Cliff →
        s.start_time ≤ s.cliff_time →
        s.cliff_time ≤ s.end_time →
        s.calculate_streamed_amount t =
          Except.ok (if t < s.cliff_time then 0
            else s.cliff_amount +
              linear_spec (s.deposited_amount - s.cliff_amount)
                s.start_time s.end_time t)) := by
  intro hcl
  have h := hcl sDeg 100 rfl (by decide) (by decide)
  have e : sDeg.calculate_streamed_amount 100 = Except.ok 0 := rfl
  rw [e] at h
  have e2 : (if (100 : Int) < sDeg.cliff_time then (0 : Nat)
      else sDeg.cliff_amount + linear_spec (sDeg.deposited_amount - sDeg.cliff_amount)
        sDeg.start_time sDeg.end_time 100) = 1000 := rfl
  rw [e2] at h
  exact absurd (Except.ok.inj h) (by decide)

/-- C7 amended: for every Cliff stream with
`start_time <= cliff_time <= end_time`, `start_time < end_time`, the
amounts in `u64` range and the duration within `i64`, the streamed
amount is 0 before `cliff_time` and `cliff_amount` plus the Linear
formula on the remainder at or after it; the Scenario-3 withdrawable
amounts are 0 at 140, 500 at 150 and 1000 at 200. -/
theorem cliff_streamed_formula_amended :
    (∀ (s : SF.Stream) (t : Int),
      s.stream_type = SF.StreamType.Cliff →
      s.deposited_amount < U64_MOD →
      s.cliff_amount < U64_MOD →
      s.start_time ≤ s.cliff_time →
      s.cliff_time ≤ s.end_time →
      s.start_time < s.end_time →
      s.end_time - s.start_time ≤ I64_MAX →
      s.calculate_streamed_amount t =
        Except.ok (if t < s.cliff_time then 0
          else s.cliff_amount +
            linear_spec (s.deposited_amount - s.cliff_amount)
              s.start_time s.end_time t)) ∧
    s3.withdrawable_amount 140 = Except.ok 0 ∧
    s3.withdrawable_amount 150 = Except.ok 500 ∧
    s3.withdrawable_amount 200 = Except.ok 1000 := by
  constructor
  · intro s t htyp hA hcA hsc hce hab hfit
    unfold SF.Stream.calculate_streamed_amount
    by_cases ht : t < s.start_time
    · rw [if_pos ht, if_pos (by omega : t < s.cliff_time)]
    · rw [if_neg ht, htyp]
      dsimp only
      by_cases hc : t < s.cliff_time
      · rw [cliff_guard_zero s t hc, if_pos hc]
      · have htc : s.cliff_time ≤ t := by omega
        have hta : s.start_time ≤ t := by omega
        rw [calculate_cliff_amount_closed s hA hcA hab t htc hta]
        rw [if_neg hc]
        congr 2
        have hdur : satSubI64 s.end_time s.start_time = s.end_time - s.start_time :=
          satSubI64_of_bounds _ _ (by unfold I64_MIN; omega) hfit
        have hel : satSubI64 (min t s.end_time) s.start_time =
            min t s.end_time - s.start_time :=
          satSubI64_of_bounds _ _ (by unfold I64_MIN; omega)
            (by unfold I64_MAX at hfit ⊢; omega)
        rw [hdur, hel]
        unfold linear_spec
        by_cases hst : s.start_time < t
        · rw [if_pos hst, if_neg (by omega : ¬ t < s.start_time)]
          by_cases hend : s.end_time ≤ t
          · rw [if_pos hend]
            have hmt : min t s.end_time = s.end_time := min_eq_right (by omega)
            rw [hmt]
            have hduN : 0 < (s.end_time - s.start_time).toNat := by omega
            rw [Nat.mul_div_cancel _ hduN]
          · rw [if_neg hend]
            have hmt : min t s.end_time = t := min_eq_left (by omega)
            rw [hmt]
        · have hteq : t = s.start_time := by omega
          rw [if_neg hst, if_neg (by omega : ¬ t < s.start_time),
            if_neg (by omega : ¬ s.end_time ≤ t), hteq]
          simp
  · exact ⟨rfl, rfl, rfl⟩

/-- Witness for the amended C7: the Scenario-3 stream at its cliff. -/
theorem cliff_streamed_formula_amended_witness :
    s3.calculate_streamed_amount 150 =
      Except.ok (if (150 : Int) < s3.cliff_time then 0
        else s3.cliff_amount + linear_spec (s3.deposited_amount - s3.cliff_amount)
          s3.start_time s3.end_time 150) :=
  cliff_streamed_formula_amended.1 s3 150 rfl (by decide) (by decide) (by decide)
    (by decide) (by decide) (by decide)

/-- C1 counterexample: with the stream fully vested (t = 100) and a
custody balance of only 500, `calculate_amounts` returns
`(recipient_due, sender_due) = (1000, 0)`: the recipient share is not
capped at the custody balance, so the split does not conserve it. -/
theorem cancel_settlement_conservation_cex :
    ¬ (∀ (s : CS.Stream) (t : Int) (escrow_amount : Nat),
        (s.calculate_amounts t escrow_amount).1 +
          (s.calculate_amounts t escrow_amount).2 = escrow_amount) := by
  intro hcl
  have h := hcl cs0 100 500
  have e : cs0.calculate_amounts 100 500 = (1000, 0) := rfl
  rw [e] at h
  exact absurd h (by decide)

/-- C1 amended: the settlement computes
`recipient_due = max(streamed - withdrawn, 0)` with no custody cap and
`sender_due = custody_balance` saturating-minus `recipient_due`;
whenever `recipient_due <= custody_balance` the split conserves the
custody balance exactly (both components are `Nat`, hence
non-negative). -/
theorem cancel_settlement_conservation_amended :
    ∀ (s : CS.Stream) (t : Int) (escrow_amount : Nat),
      (s.calculate_amounts t escrow_amount).1 ≤ escrow_amount →
      (s.calculate_amounts t escrow_amount).1 +
        (s.calculate_amounts t escrow_amount).2 = escrow_amount := by
  intro s t e h
  have key : (s.calculate_amounts t e).2 = e - (s.calculate_amounts t e).1 := rfl
  omega

/-- Witness for the amended C1: Scenario 4 (cancel mid-stream), 400
streamed out of a custody balance of 1000. -/
theorem cancel_settlement_conservation_amended_witness :
    (cs0.calculate_amounts 40 1000).1 = 400 ∧
    (cs0.calculate_amounts 40 1000).1 + (cs0.calculate_amounts 40 1000).2 = 1000 :=
  ⟨rfl, cancel_settlement_conservation_amended cs0 40 1000 (by decide)⟩

/-- C3: `calculate_fees` performs no validation of
`fee_percentage + partner_fee_percentage`: with 9000 + 9000 basis points
on amount 10000 it returns `Ok (9000, 9000)` — total fees 18000 exceed
the settled amount — instead of failing with a FeeConfigInvalid-class
error as the specification requires. -/
theorem calculate_fees_no_bps_sum_check :
    sFee.calculate_fees 10000 = Except.ok (9000, 9000) ∧ 10000 < 9000 + 9000 :=
  ⟨rfl, by decide⟩

/-- C4 counterexample: on the cancel gate of the claim's cited
cancel_stream.rs instruction, a Completed stream fails with
`StreamNotActive` rather than a StreamAlreadyCompleted-class error (no
code path in the repository produces one), and the recipient of a
Streaming stream with `cancelable_by_recipient` set is rejected with
`Unauthorized` instead of being admitted. -/
theorem cancel_authorization_cex :
    (¬ ∀ (sender recipient authority : Nat) (cbs cbr : Bool),
        CS.cancel_gate SF.StreamStatus.Completed sender recipient authority cbs cbr =
          Except.error Err.StreamAlreadyCompleted) ∧
    (¬ ∀ (sender recipient : Nat) (cbs : Bool),
        CS.cancel_gate SF.StreamStatus.Streaming sender recipient recipient cbs true =
          Except.ok ()) := by
  constructor
  · intro hcl
    have h := hcl 1 2 1 true true
    rw [show CS.cancel_gate SF.StreamStatus.Completed 1 2 1 true true =
      Except.error Err.StreamNotActive from rfl] at h
    exact absurd (Except.error.inj h) (by decide)
  · intro hcl
    have h := hcl 1 2 true
    rw [show CS.cancel_gate SF.StreamStatus.Streaming 1 2 2 true true =
      Except.error Err.Unauthorized from rfl] at h
    simp at h

/-- C4 amended: the status-based guard `can_cancel` authorizes cancel
exactly for the sender with `cancelable_by_sender` or the recipient with
`cancelable_by_recipient` while the status is not
`Cancelled`/`Completed`; the lib.rs cancel gates, which run before any
mutation, report the already-cancelled error on a cancelled stream and
the unauthorized error for any other authority; and the cancel_stream.rs
instruction gate admits exactly the sender of a Streaming stream,
ignoring the cancelable flags and the recipient - in any other status,
the terminal ones included, it fails with `StreamNotActive` (never a
StreamAlreadyCompleted-class error), and it rejects every non-sender
authority on a Streaming stream with `Unauthorized`. -/
theorem cancel_authorization_amended :
    (∀ (s : SF.Stream) (authority : Nat),
      s.can_cancel authority = true ↔
        ((s.status ≠ SF.StreamStatus.Cancelled ∧ s.status ≠ SF.StreamStatus.Completed) ∧
         ((s.cancelable_by_sender = true ∧ authority = s.sender) ∨
          (s.cancelable_by_recipient = true ∧ authority = s.recipient)))) ∧
    (∀ (c : Int) (paused : Bool) (authority sender recipient : Nat) (cbs cbr : Bool),
      LIB.cancel_gate (some c) paused authority sender recipient cbs cbr =
        Except.error Err.StreamAlreadyCanceled) ∧
    (∀ (authority sender recipient : Nat) (cbs cbr : Bool),
      authority ≠ sender → authority ≠ recipient →
      LIB.cancel_gate none false authority sender recipient cbs cbr =
        Except.error Err.UnauthorizedCancel) ∧
    (∀ (status : SF.StreamStatus) (sender recipient authority : Nat) (cbs cbr : Bool),
      CS.cancel_gate status sender recipient authority cbs cbr = Except.ok () ↔
        (status = SF.StreamStatus.Streaming ∧ authority = sender)) ∧
    (∀ (status : SF.StreamStatus) (sender recipient authority : Nat) (cbs cbr : Bool),
      status ≠ SF.StreamStatus.Streaming →
      CS.cancel_gate status sender recipient authority cbs cbr =
        Except.error Err.StreamNotActive) ∧
    (∀ (sender recipient authority : Nat) (cbs cbr : Bool),
      authority ≠ sender →
      CS.cancel_gate SF.StreamStatus.Streaming sender recipient authority cbs cbr =
        Except.error Err.Unauthorized) := by
  refine ⟨?_, ?_, ?_, ?_, ?_, ?_⟩
  · intro s authority
    cases hs : s.status <;>
      simp [SF.Stream.can_cancel, hs, Bool.or_eq_true, Bool.and_eq_true, beq_iff_eq]
  · intro c paused a snd r cbs cbr
    rfl
  · intro a snd r cbs cbr h1 h2
    simp [LIB.cancel_gate, h1, h2]
  · intro status snd rcp a cbs cbr
    unfold CS.cancel_gate
    by_cases hst : status = SF.StreamStatus.Streaming
    · by_cases ha : a = snd
      · simp [hst, ha]
      · simp [hst, ha]
    · simp [hst]
  · intro status snd rcp a cbs cbr hst
    unfold CS.cancel_gate
    rw [if_pos hst]
  · intro snd rcp a cbs cbr ha
    unfold CS.cancel_gate
    rw [if_neg (by simp), if_pos ha]

/-- Witness for the amended C4: an unrelated authority rejected by the
lib.rs gate, a Completed stream and a non-sender rejected by the
instruction gate. -/
theorem cancel_authorization_amended_witness :
    LIB.cancel_gate none false 5 1 2 true true = Except.error Err.UnauthorizedCancel ∧
    CS.cancel_gate SF.StreamStatus.Completed 1 2 1 true true =
      Except.error Err.StreamNotActive ∧
    CS.cancel_gate SF.StreamStatus.Streaming 1 2 2 true true =
      Except.error Err.Unauthorized :=
  ⟨cancel_authorization_amended.2.2.1 5 1 2 true true (by decide) (by decide),
   cancel_authorization_amended.2.2.2.2.1 SF.StreamStatus.Completed 1 2 1 true true
     (by decide),
   cancel_authorization_amended.2.2.2.2.2 1 2 2 true true (by decide)⟩

/-- C8: the status-transition validator accepts exactly the seven legal
transitions and rejects every other ordered pair; in particular nothing
leaves `Cancelled` or `Completed`. -/
theorem is_valid_status_transition_characterization :
    (∀ (a b : SF.StreamStatus),
      utils.is_valid_status_transition a b = true ↔
        ((a = SF.StreamStatus.Scheduled ∧ b = SF.StreamStatus.Streaming) ∨
         (a = SF.StreamStatus.Scheduled ∧ b = SF.StreamStatus.Cancelled) ∨
         (a = SF.StreamStatus.Streaming ∧ b = SF.StreamStatus.Paused) ∨
         (a = SF.StreamStatus.Streaming ∧ b = SF.StreamStatus.Cancelled) ∨
         (a = SF.StreamStatus.Streaming ∧ b = SF.StreamStatus.Completed) ∨
         (a = SF.StreamStatus.Paused ∧ b = SF.StreamStatus.Streaming) ∨
         (a = SF.StreamStatus.Paused ∧ b = SF.StreamStatus.Cancelled))) ∧
    (∀ (b : SF.StreamStatus),
      utils.is_valid_status_transition SF.StreamStatus.Cancelled b = false ∧
      utils.is_valid_status_transition SF.StreamStatus.Completed b = false) := by
  decide

/-- C9: on the status-bearing record a Completed status forces a zero
withdrawable amount, and whenever the withdrawable amount is zero the
withdraw handler fails with the no-funds error before mutating any
field (no updated record is produced on the error path). -/
theorem completed_withdraw_fails :
    (∀ (s : SF.Stream) (t : Int),
      s.status = SF.StreamStatus.Completed →
      s.withdrawable_amount t = Except.ok 0) ∧
    (∀ (ws : WD.Stream) (t : Int) (amount : Option Nat),
      ws.calculate_withdrawable_amount t = Except.ok 0 →
      WD.handler ws t amount = Except.error Err.NoTokensToWithdraw) := by
  constructor
  · intro s t hs
    unfold SF.Stream.withdrawable_amount
    rw [if_pos (by rw [hs]; decide)]
  · intro ws t amount h
    unfold WD.handler
    rw [h]
    rfl

/-- Witness for C9: a completed stream and a not-yet-started stream. -/
theorem completed_withdraw_fails_witness :
    sComp.withdrawable_amount 123 = Except.ok 0 ∧
    WD.handler ws0 50 none = Except.error Err.NoTokensToWithdraw :=
  ⟨completed_withdraw_fails.1 sComp 123 rfl,
   completed_withdraw_fails.2 ws0 50 none (by exact rfl)⟩

/-- C10: a successful withdraw updates only `withdrawn_amount` (by
exactly the actual amount), `last_withdrawn_at`, and — exactly when the
new withdrawn total reaches the deposit — `is_active` and the recorded
`end_time`; every other field of the record is unchanged. -/
theorem withdraw_frame :
    ∀ (ws : WD.Stream) (t : Int) (amount : Option Nat) (ws2 : WD.Stream) (actual : Nat),
      WD.handler ws t amount = Except.ok (ws2, actual) →
      ws2.sender = ws.sender ∧
      ws2.recipient = ws.recipient ∧
      ws2.mint = ws.mint ∧
      ws2.deposited_amount = ws.deposited_amount ∧
      ws2.start_time = ws.start_time ∧
      ws2.stream_type = ws.stream_type ∧
      ws2.cliff_amount = ws.cliff_amount ∧
      ws2.bump = ws.bump ∧
      ws2.withdrawn_amount = ws.withdrawn_amount + actual ∧
      ws2.last_withdrawn_at = t ∧
      (ws.deposited_amount ≤ ws.withdrawn_amount + actual →
        ws2.is_active = false ∧ ws2.end_time = some t) ∧
      (ws.withdrawn_amount + actual < ws.deposited_amount →
        ws2.is_active = ws.is_active ∧ ws2.end_time = ws.end_time) := by
  intro ws t amount ws2 actual h
  unfold WD.handler at h
  split at h
  · simp at h
  · rename_i withdrawable hcalc
    split at h
    · simp at h
    · rename_i hw0
      dsimp only at h
      split at h
      · simp at h
      · rename_i w heq
        split at h
        · simp at h
        · rename_i nw hadd
          unfold checkedAddU64 at hadd
          split at hadd
          · rename_i hsum
            have hnw := Option.some.inj hadd
            split at h
            · rename_i hcomp
              have hc2 : ws.deposited_amount ≤ nw := hcomp
              have hp := Except.ok.inj h
              injection hp with hA hB
              subst hA
              subst hB
              refine ⟨rfl, rfl, rfl, rfl, rfl, rfl, rfl, rfl, ?_, rfl, ?_, ?_⟩
              · show nw = ws.withdrawn_amount + w
                omega
              · intro hle
                exact ⟨rfl, rfl⟩
              · intro hlt
                exfalso
                omega
            · rename_i hncomp
              have hc2 : ¬ ws.deposited_amount ≤ nw := hncomp
              have hp := Except.ok.inj h
              injection hp with hA hB
              subst hA
              subst hB
              refine ⟨rfl, rfl, rfl, rfl, rfl, rfl, rfl, rfl, ?_, rfl, ?_, ?_⟩
              · show nw = ws.withdrawn_amount + w
                omega
              · intro hle
                exfalso
                omega
              · intro hlt
                exact ⟨rfl, rfl⟩
          · simp at hadd

/-- Witness for C10: a partial withdrawal of 200 at the midpoint of the
withdraw.rs unit-test stream. -/
theorem withdraw_frame_witness :
    WD.handler ws0 150 (some 200) =
      Except.ok ({ ws0 with withdrawn_amount := 200, last_withdrawn_at := 150 }, 200) ∧
    ({ ws0 with withdrawn_amount := 200, last_withdrawn_at := 150 } : WD.Stream).sender =
      ws0.sender ∧
    ({ ws0 with withdrawn_amount := 200, last_withdrawn_at := 150 } : WD.Stream).is_active =
      ws0.is_active :=
  ⟨rfl,
   (withdraw_frame ws0 150 (some 200)
      { ws0 with withdrawn_amount := 200, last_withdrawn_at := 150 } 200 (by exact rfl)).1,
   ((withdraw_frame ws0 150 (some 200)
      { ws0 with withdrawn_amount := 200, last_withdrawn_at := 150 } 200 (by exact rfl)).2.2.2.2.2.2.2.2.2.2.2
      (by decide)).1⟩
